import Mathlib

/-!
# Verification of the ledger transaction-posting engine

Shallow embedding of `src/pages/api/transaction/index.ts` (the transaction
poster) over the Prisma data model of `prisma/schema.prisma`.

Modelling choices:
* Prisma enum values are strings at the JavaScript boundary, and the request
  body is unvalidated JSON, so the `accountType` field carried by a request
  entry is modelled as a `String` (the declared enum values being the strings
  `"ASSET"` and `"LIABILITY"`); this is what the `==` comparisons in
  `getAccountDirection` actually compare at runtime.
* `prisma.$transaction(ops)` runs the prepared operations sequentially inside
  one database transaction: on the first failing operation the whole
  transaction is rolled back and the error is rethrown.  This is modelled by
  `runTransaction`, a fold in the `Except` monad over an explicit ledger
  state; the caller keeps the pre-call state on error.
* `prisma.entry.create` fails (foreign-key violation) when the referenced
  account does not exist; `prisma.account.update` fails (record not found)
  when the `where` clause matches no account.  A Prisma update whose `data`
  contains `balance: undefined` (the value `getAccountDirection` produces for
  an unrecognized account type) succeeds and leaves `balance` unchanged.
-/

namespace Ledger

/-- Prisma enum `DebitCredit`. -/
inductive DebitCredit where
  | DEBIT
  | CREDIT
deriving DecidableEq, Repr

/-- The string value of the Prisma enum member `AccountType.ASSET`. -/
def ASSET : String := "ASSET"

/-- The string value of the Prisma enum member `AccountType.LIABILITY`. -/
def LIABILITY : String := "LIABILITY"

/-- Prisma model `Account` (the fields the poster can observe or mutate;
`createdAt`/`updatedAt` timestamps are out of scope). -/
@[ext] structure Account where
  id : Int
  name : Option String
  accountType : String
  balance : Int
deriving DecidableEq, Repr

/-- Prisma model `Entry` (timestamps and the autoincrement `id` out of
scope). -/
@[ext] structure Entry where
  transactionId : Int
  name : Option String
  description : Option String
  debitCredit : DebitCredit
  amount : Int
  accountId : Int
deriving DecidableEq, Repr

/-- The `LedgerEntry` interface of the request body. -/
@[ext] structure LedgerEntry where
  transactionId : Int
  amount : Int
  accountId : Int
  debitCredit : DebitCredit
  name : String
  accountType : String
deriving DecidableEq, Repr

/-- The body of `TransactionBodyType`. -/
@[ext] structure TransactionBody where
  name : String
  description : String
  ledgerEntries : List LedgerEntry
deriving DecidableEq, Repr

/-- The argument Prisma accepts for the `balance` field in an
`account.update`: `{ increment: n }` or `{ decrement: n }`. -/
inductive BalanceUpdate where
  | increment (amount : Int)
  | decrement (amount : Int)
deriving DecidableEq, Repr

/-- `getAccountDirection` from `src/pages/api/transaction/index.ts`.
The TypeScript function returns `{increment: amount}` / `{decrement: amount}`
in the two recognized branches and falls through (returns `undefined`,
modelled `none`) for every other `accountType` string. -/
def getAccountDirection (accountType : String) (debitCredit : DebitCredit)
    (amount : Int) : Option BalanceUpdate :=
  if accountType = ASSET then
    some (if debitCredit = DebitCredit.DEBIT then
      BalanceUpdate.increment amount else BalanceUpdate.decrement amount)
  else if accountType = LIABILITY then
    some (if debitCredit = DebitCredit.CREDIT then
      BalanceUpdate.increment amount else BalanceUpdate.decrement amount)
  else
    none

/-- One prepared Prisma operation of the batch handed to
`prisma.$transaction`. -/
inductive DbOperation where
  | createEntry (e : Entry)
  | updateAccount (id : Int) (balance : Option BalanceUpdate)
deriving DecidableEq, Repr

/-- `createEntryTransactions` from `src/pages/api/transaction/index.ts`:
prepares the `entry.create` (writing only `transactionId`, `name`,
`debitCredit`, `amount`, `accountId` — `description` is not written and so
stays `NULL`) and the `account.update` adjusting `balance` by
`getAccountDirection`. -/
def createEntryTransactions (entry : LedgerEntry) : List DbOperation :=
  [ DbOperation.createEntry
      { transactionId := entry.transactionId
        name := some entry.name
        description := none
        debitCredit := entry.debitCredit
        amount := entry.amount
        accountId := entry.accountId },
    DbOperation.updateAccount entry.accountId
      (getAccountDirection entry.accountType entry.debitCredit entry.amount) ]

/-- The durable ledger state: the `Account` and `Entry` tables. -/
@[ext] structure LedgerState where
  accounts : List Account
  entries : List Entry
deriving DecidableEq, Repr

/-- Whether an account with the given id exists. -/
def LedgerState.hasAccount (st : LedgerState) (id : Int) : Bool :=
  st.accounts.any (fun a => decide (a.id = id))

/-- Effect of a Prisma `balance` update argument on a stored balance;
`none` (the field set to `undefined`) leaves the balance unchanged. -/
def applyBalanceUpdate (balance : Int) : Option BalanceUpdate → Int
  | none => balance
  | some (BalanceUpdate.increment x) => balance + x
  | some (BalanceUpdate.decrement x) => balance - x

/-- Database-level failures an operation of the batch can raise. -/
inductive DbError where
  | foreignKeyViolation
  | recordNotFound
deriving DecidableEq, Repr

/-- Effect of an `account.update` on one stored row: the row matching the
`where` clause gets its balance adjusted, every other row is untouched. -/
def updateBalanceRow (id : Int) (upd : Option BalanceUpdate) (a : Account) :
    Account :=
  if a.id = id then { a with balance := applyBalanceUpdate a.balance upd }
  else a

/-- Semantics of one prepared operation against the store. -/
def applyOperation (st : LedgerState) : DbOperation → Except DbError LedgerState
  | DbOperation.createEntry e =>
      if st.hasAccount e.accountId then
        Except.ok { st with entries := st.entries ++ [e] }
      else
        Except.error DbError.foreignKeyViolation
  | DbOperation.updateAccount id upd =>
      if st.hasAccount id then
        Except.ok { st with accounts := st.accounts.map (updateBalanceRow id upd) }
      else
        Except.error DbError.recordNotFound

/-- `prisma.$transaction(ops)`: the operations run in order inside one
database transaction; the first failure aborts and rolls everything back
(the caller keeps the pre-call state together with the error). -/
def runTransaction (st : LedgerState) :
    List DbOperation → Except DbError LedgerState
  | [] => Except.ok st
  | op :: ops =>
      match applyOperation st op with
      | Except.ok st2 => runTransaction st2 ops
      | Except.error e => Except.error e

/-- What the HTTP caller of `handlePOST` observes: `res.status(201)` on
success, or the rethrown store error (a 500) when `prisma.$transaction`
rejects. -/
inductive Response where
  | status201
  | serverError (e : DbError)
deriving DecidableEq, Repr

/-- `handlePOST` from `src/pages/api/transaction/index.ts`: flat-maps
`createEntryTransactions` over `req.body.ledgerEntries` (no validation of
any kind is performed) and submits the combined list to
`prisma.$transaction`.  Returns the response and the post-call store. -/
def handlePOST (st : LedgerState) (req : TransactionBody) :
    Response × LedgerState :=
  let ledgerEntries := req.ledgerEntries
  let pendingTransactionOperations :=
    ledgerEntries.flatMap (fun entry => createEntryTransactions entry)
  match runTransaction st pendingTransactionOperations with
  | Except.ok st2 => (Response.status201, st2)
  | Except.error e => (Response.serverError e, st)

/-! ## Specification-level derived definitions (for stating the claims) -/

/-- The `Entry` row that `createEntryTransactions` prepares for a request
entry (spelled out for reuse in statements). -/
def toEntry (entry : LedgerEntry) : Entry :=
  { transactionId := entry.transactionId
    name := some entry.name
    description := none
    debitCredit := entry.debitCredit
    amount := entry.amount
    accountId := entry.accountId }

/-- Signed delta carried by a Prisma `balance` update argument. -/
def updateDelta : Option BalanceUpdate → Int
  | none => 0
  | some (BalanceUpdate.increment x) => x
  | some (BalanceUpdate.decrement x) => -x

/-- The signed balance delta the code resolves for one request entry. -/
def entryDelta (e : LedgerEntry) : Int :=
  updateDelta (getAccountDirection e.accountType e.debitCredit e.amount)

/-- Net signed delta a batch carries for the account with the given id. -/
def netDelta (es : List LedgerEntry) (id : Int) : Int :=
  ((es.filter (fun e => decide (e.accountId = id))).map entryDelta).sum

/-- Full successful effect of a batch: every request entry's row appended,
and every account's balance shifted by the batch's net delta for it. -/
def applyBatch (st : LedgerState) (es : List LedgerEntry) : LedgerState :=
  { accounts := st.accounts.map (fun a =>
      { a with balance := a.balance + netDelta es a.id })
    entries := st.entries ++ es.map toEntry }

/-- Balance of the (first) account with the given id. -/
def LedgerState.balanceOf (st : LedgerState) (id : Int) : Option Int :=
  (st.accounts.find? (fun a => decide (a.id = id))).map Account.balance

/-- Sum of the amounts of the Debit entries of a batch. -/
def debitTotal (es : List LedgerEntry) : Int :=
  ((es.filter (fun e => decide (e.debitCredit = DebitCredit.DEBIT))).map
    LedgerEntry.amount).sum

/-- Sum of the amounts of the Credit entries of a batch. -/
def creditTotal (es : List LedgerEntry) : Int :=
  ((es.filter (fun e => decide (e.debitCredit = DebitCredit.CREDIT))).map
    LedgerEntry.amount).sum

/-- How many balance-adjustment operations of the prepared batch target the
account with the given id. -/
def countBalanceAdjustments (ops : List DbOperation) (id : Int) : Nat :=
  (ops.filter (fun op =>
    match op with
    | DbOperation.updateAccount i _ => decide (i = id)
    | _ => false)).length

/-- The same store with every account's stored type rewritten by `f`
(ids, balances and entries untouched). -/
def retypeAccounts (st : LedgerState) (f : String → String) : LedgerState :=
  { st with accounts := st.accounts.map (fun a =>
      { a with accountType := f a.accountType }) }

/-! ## Concrete fixtures (the accounts and requests of the spec's examples) -/

/-- A one-account store: account id 1 with the given stored type and
balance. -/
def oneAccountLedger (t : String) (b : Int) : LedgerState :=
  { accounts := [{ id := 1, name := none, accountType := t, balance := b }]
    entries := [] }

/-- A request entry of transaction 1 against the given account. -/
def mkRequestEntry (acct : Int) (dc : DebitCredit) (amt : Int) (t : String) :
    LedgerEntry :=
  { transactionId := 1, amount := amt, accountId := acct, debitCredit := dc,
    name := "entry", accountType := t }

/-- A request body around a batch of entries. -/
def mkRequest (es : List LedgerEntry) : TransactionBody :=
  { name := "transfer", description := "example", ledgerEntries := es }

/-- Two Asset accounts A (id 1) and B (id 2), each with balance 20000. -/
def exampleLedger : LedgerState :=
  { accounts :=
      [ { id := 1, name := some "Checkings", accountType := ASSET, balance := 20000 },
        { id := 2, name := some "Savings", accountType := ASSET, balance := 20000 } ]
    entries := [] }

/-- One Liability account C (id 3) with balance 0. -/
def liabilityLedger : LedgerState :=
  { accounts :=
      [ { id := 3, name := some "Credit Card", accountType := LIABILITY, balance := 0 } ]
    entries := [] }

/-! ## Helper lemmas -/

lemma applyBalanceUpdate_eq (b : Int) (o : Option BalanceUpdate) :
    applyBalanceUpdate b o = b + updateDelta o := by
  cases o with
  | none => simp [applyBalanceUpdate, updateDelta]
  | some u =>
      cases u <;> simp [applyBalanceUpdate, updateDelta, sub_eq_add_neg]

lemma hasAccount_accounts_map (accounts : List Account) (entries : List Entry)
    (g : Account → Account) (hg : ∀ a, (g a).id = a.id) (id : Int) :
    LedgerState.hasAccount ⟨accounts.map g, entries⟩ id =
      LedgerState.hasAccount ⟨accounts, entries⟩ id := by
  simp [LedgerState.hasAccount, List.any_map, Function.comp_def, hg]

lemma netDelta_nil (id : Int) : netDelta [] id = 0 := rfl

lemma netDelta_cons (e : LedgerEntry) (es : List LedgerEntry) (id : Int) :
    netDelta (e :: es) id =
      (if e.accountId = id then entryDelta e else 0) + netDelta es id := by
  by_cases h : e.accountId = id <;>
    simp [netDelta, List.filter_cons, h]

lemma applyBatch_nil (st : LedgerState) : applyBatch st [] = st := by
  have hfun : (fun a : Account => { a with balance := a.balance + netDelta [] a.id })
      = fun a : Account => a := by
    funext a
    simp [netDelta_nil]
  simp [applyBatch, hfun]

lemma updateBalanceRow_id (id : Int) (upd : Option BalanceUpdate)
    (a : Account) : (updateBalanceRow id upd a).id = a.id := by
  unfold updateBalanceRow
  by_cases hid : a.id = id <;> simp [hid]

lemma toEntry_accountId (e : LedgerEntry) : (toEntry e).accountId = e.accountId :=
  rfl

/-- The prepared operation list of a batch, head entry spelled out. -/
lemma flatMap_ops_cons (e : LedgerEntry) (es : List LedgerEntry) :
    (e :: es).flatMap (fun entry => createEntryTransactions entry) =
      DbOperation.createEntry (toEntry e) ::
      DbOperation.updateAccount e.accountId
        (getAccountDirection e.accountType e.debitCredit e.amount) ::
      es.flatMap (fun entry => createEntryTransactions entry) := by
  simp [createEntryTransactions, toEntry]

lemma applyOperation_createEntry_ok (st : LedgerState) (e : Entry)
    (h : st.hasAccount e.accountId = true) :
    applyOperation st (DbOperation.createEntry e) =
      Except.ok { st with entries := st.entries ++ [e] } := by
  simp [applyOperation, h]

lemma applyOperation_updateAccount_ok (st : LedgerState) (id : Int)
    (upd : Option BalanceUpdate) (h : st.hasAccount id = true) :
    applyOperation st (DbOperation.updateAccount id upd) =
      Except.ok { st with accounts := st.accounts.map (updateBalanceRow id upd) } := by
  simp [applyOperation, h]

lemma runTransaction_cons_ok (st st2 : LedgerState) (op : DbOperation)
    (ops : List DbOperation) (h : applyOperation st op = Except.ok st2) :
    runTransaction st (op :: ops) = runTransaction st2 ops := by
  simp [runTransaction, h]

lemma runTransaction_cons_error (st : LedgerState) (err : DbError)
    (op : DbOperation) (ops : List DbOperation)
    (h : applyOperation st op = Except.error err) :
    runTransaction st (op :: ops) = Except.error err := by
  simp [runTransaction, h]

lemma hasAccount_mk_map_update (accounts : List Account) (entries : List Entry)
    (id : Int) (upd : Option BalanceUpdate) (i : Int) :
    LedgerState.hasAccount ⟨accounts.map (updateBalanceRow id upd), entries⟩ i =
      LedgerState.hasAccount ⟨accounts, entries⟩ i :=
  hasAccount_accounts_map accounts entries _ (updateBalanceRow_id id upd) i

/-- The prepared batch carries exactly one balance adjustment per request
entry: the number of adjustments targeting an account equals the number of
batch entries that reference it. -/
lemma countBalanceAdjustments_flatMap (es : List LedgerEntry) (id : Int) :
    countBalanceAdjustments
        (es.flatMap fun entry => createEntryTransactions entry) id =
      (es.filter (fun e => decide (e.accountId = id))).length := by
  induction es with
  | nil => rfl
  | cons e es ih =>
      by_cases h : e.accountId = id <;>
        simp [List.flatMap_cons, createEntryTransactions,
          countBalanceAdjustments, List.filter_cons, List.filter_append, h] at ih ⊢ <;>
        simpa [countBalanceAdjustments] using ih

/-- Successful run of the prepared batch: if every request entry's account
exists, the transaction commits and produces exactly `applyBatch`. -/
lemma runTransaction_flatMap_ok (es : List LedgerEntry) :
    ∀ st : LedgerState, (∀ e ∈ es, st.hasAccount e.accountId = true) →
      runTransaction st (es.flatMap (fun entry => createEntryTransactions entry)) =
        Except.ok (applyBatch st es) := by
  induction es with
  | nil =>
      intro st _
      simp [runTransaction, applyBatch_nil]
  | cons e es ih =>
      intro st h
      have he : st.hasAccount e.accountId = true := h e (by simp)
      rw [flatMap_ops_cons]
      rw [runTransaction_cons_ok st { st with entries := st.entries ++ [toEntry e] }
        _ _ (applyOperation_createEntry_ok st (toEntry e)
          (by rw [toEntry_accountId]; exact he))]
      rw [runTransaction_cons_ok { st with entries := st.entries ++ [toEntry e] } _
        _ _ (applyOperation_updateAccount_ok
          { st with entries := st.entries ++ [toEntry e] } e.accountId
          (getAccountDirection e.accountType e.debitCredit e.amount)
          (by exact he))]
      rw [ih _ ?_]
      · congr 1
        unfold applyBatch
        refine LedgerState.ext ?_ ?_
        · simp only [List.map_map]
          refine List.map_congr_left ?_
          intro a _
          simp only [Function.comp_def, updateBalanceRow]
          by_cases hid : a.id = e.accountId
          · simp only [if_pos hid]
            refine Account.ext rfl rfl rfl ?_
            simp [applyBalanceUpdate_eq, netDelta_cons, hid, entryDelta,
              add_assoc]
          · simp only [if_neg hid]
            refine Account.ext rfl rfl rfl ?_
            have hid2 : e.accountId ≠ a.id := fun hc => hid hc.symm
            simp [netDelta_cons, hid2]
        · simp [toEntry]
      · intro e' he'
        rw [hasAccount_mk_map_update st.accounts (st.entries ++ [toEntry e]) _ _
          e'.accountId]
        exact h e' (by simp [he'])

/-- If the prepared batch commits, every request entry's account already
existed in the pre-call store. -/
lemma runTransaction_flatMap_ok_hasAccount (es : List LedgerEntry) :
    ∀ st st' : LedgerState,
      runTransaction st (es.flatMap (fun entry => createEntryTransactions entry)) =
        Except.ok st' →
      ∀ e ∈ es, st.hasAccount e.accountId = true := by
  induction es with
  | nil => intro st st' _ e he; cases he
  | cons e es ih =>
      intro st st' hrun e' he'
      by_cases hc : st.hasAccount e.accountId = true
      · rw [flatMap_ops_cons] at hrun
        rw [runTransaction_cons_ok st { st with entries := st.entries ++ [toEntry e] }
          _ _ (applyOperation_createEntry_ok st (toEntry e)
            (by rw [toEntry_accountId]; exact hc))] at hrun
        rw [runTransaction_cons_ok { st with entries := st.entries ++ [toEntry e] } _
          _ _ (applyOperation_updateAccount_ok
            { st with entries := st.entries ++ [toEntry e] } e.accountId
            (getAccountDirection e.accountType e.debitCredit e.amount)
            (by exact hc))] at hrun
        rcases List.mem_cons.mp he' with h1 | h2
        · rw [h1]; exact hc
        · have hmem := ih _ st' hrun e' h2
          rwa [hasAccount_mk_map_update st.accounts (st.entries ++ [toEntry e]) _ _
            e'.accountId] at hmem
      · exfalso
        rw [flatMap_ops_cons] at hrun
        rw [runTransaction_cons_error st DbError.foreignKeyViolation _ _ ?_] at hrun
        · cases hrun
        · have hc2 : st.hasAccount (toEntry e).accountId = false := by
            rw [toEntry_accountId]
            exact Bool.not_eq_true _ |>.mp hc
          simp [applyOperation, hc2]

/-- `handlePOST` on a batch whose referenced accounts all exist: commits
fully. -/
lemma handlePOST_of_valid (st : LedgerState) (req : TransactionBody)
    (h : ∀ e ∈ req.ledgerEntries, st.hasAccount e.accountId = true) :
    handlePOST st req = (Response.status201, applyBatch st req.ledgerEntries) := by
  simp only [handlePOST]
  rw [runTransaction_flatMap_ok _ _ h]

/-- `handlePOST` is all-or-nothing: either the full batch effect, or an
error with the store exactly as before. -/
lemma handlePOST_cases (st : LedgerState) (req : TransactionBody) :
    handlePOST st req = (Response.status201, applyBatch st req.ledgerEntries) ∨
      ∃ err, handlePOST st req = (Response.serverError err, st) := by
  rcases hrun : runTransaction st
      (req.ledgerEntries.flatMap (fun entry => createEntryTransactions entry)) with
    err | st2
  · right
    refine ⟨err, ?_⟩
    simp only [handlePOST]
    rw [hrun]
  · left
    have hall := runTransaction_flatMap_ok_hasAccount req.ledgerEntries st st2 hrun
    exact handlePOST_of_valid st req hall

lemma getAccountDirection_asset (dc : DebitCredit) (X : Int) :
    getAccountDirection ASSET dc X =
      some (if dc = DebitCredit.DEBIT then BalanceUpdate.increment X
        else BalanceUpdate.decrement X) := by
  simp [getAccountDirection]

lemma getAccountDirection_liability (dc : DebitCredit) (X : Int) :
    getAccountDirection LIABILITY dc X =
      some (if dc = DebitCredit.CREDIT then BalanceUpdate.increment X
        else BalanceUpdate.decrement X) := by
  simp [getAccountDirection, ASSET, LIABILITY]

/-! ## Claims -/

/-- Claim C1, counterexample: the batch `{A: Debit 100, B: Credit 50}` has
unequal Debit and Credit totals, yet `handlePOST` accepts it (201) and both
balances change — the code performs no balance validation, so the claimed
`UnbalancedTransaction` rejection does not exist. -/
theorem C1_counterexample :
    debitTotal [mkRequestEntry 1 DebitCredit.DEBIT 100 ASSET,
        mkRequestEntry 2 DebitCredit.CREDIT 50 ASSET] ≠
      creditTotal [mkRequestEntry 1 DebitCredit.DEBIT 100 ASSET,
        mkRequestEntry 2 DebitCredit.CREDIT 50 ASSET] ∧
    (handlePOST exampleLedger (mkRequest [mkRequestEntry 1 DebitCredit.DEBIT 100 ASSET,
        mkRequestEntry 2 DebitCredit.CREDIT 50 ASSET])).1 = Response.status201 ∧
    ((handlePOST exampleLedger (mkRequest [mkRequestEntry 1 DebitCredit.DEBIT 100 ASSET,
        mkRequestEntry 2 DebitCredit.CREDIT 50 ASSET])).2).balanceOf 1 = some 20100 ∧
    ((handlePOST exampleLedger (mkRequest [mkRequestEntry 1 DebitCredit.DEBIT 100 ASSET,
        mkRequestEntry 2 DebitCredit.CREDIT 50 ASSET])).2).balanceOf 2 = some 19950 := by
  decide

/-- Claim C1, amended: `handlePOST` performs no debit/credit balance
validation — a batch whose Debit and Credit totals differ is accepted
whenever every referenced account exists, and is then applied in full. -/
theorem C1_no_balance_validation (st : LedgerState) (req : TransactionBody)
    (hunb : debitTotal req.ledgerEntries ≠ creditTotal req.ledgerEntries)
    (hex : ∀ e ∈ req.ledgerEntries, st.hasAccount e.accountId = true) :
    handlePOST st req = (Response.status201, applyBatch st req.ledgerEntries) :=
  handlePOST_of_valid st req hex

/-- Witness for C1: the unbalanced example batch satisfies both hypotheses
and is accepted and applied. -/
theorem C1_no_balance_validation_witness :
    (debitTotal [mkRequestEntry 1 DebitCredit.DEBIT 100 ASSET,
        mkRequestEntry 2 DebitCredit.CREDIT 50 ASSET] ≠
      creditTotal [mkRequestEntry 1 DebitCredit.DEBIT 100 ASSET,
        mkRequestEntry 2 DebitCredit.CREDIT 50 ASSET]) ∧
    handlePOST exampleLedger (mkRequest [mkRequestEntry 1 DebitCredit.DEBIT 100 ASSET,
        mkRequestEntry 2 DebitCredit.CREDIT 50 ASSET]) =
      (Response.status201, applyBatch exampleLedger
        [mkRequestEntry 1 DebitCredit.DEBIT 100 ASSET,
          mkRequestEntry 2 DebitCredit.CREDIT 50 ASSET]) :=
  ⟨by decide,
    C1_no_balance_validation exampleLedger
      (mkRequest [mkRequestEntry 1 DebitCredit.DEBIT 100 ASSET,
        mkRequestEntry 2 DebitCredit.CREDIT 50 ASSET])
      (by decide) (by decide)⟩

/-- Claim C2: posting a single-entry batch of amount `X > 0` against the
one account of the store moves the balance per the normal-balance table:
Asset Debit `+X`, Asset Credit `-X`, Liability Debit `-X`, Liability
Credit `+X`. -/
theorem C2_direction_effects (b X : Int) (hX : 0 < X) :
    ((handlePOST (oneAccountLedger ASSET b)
      (mkRequest [mkRequestEntry 1 DebitCredit.DEBIT X ASSET])).2).balanceOf 1 =
        some (b + X) ∧
    ((handlePOST (oneAccountLedger ASSET b)
      (mkRequest [mkRequestEntry 1 DebitCredit.CREDIT X ASSET])).2).balanceOf 1 =
        some (b - X) ∧
    ((handlePOST (oneAccountLedger LIABILITY b)
      (mkRequest [mkRequestEntry 1 DebitCredit.DEBIT X LIABILITY])).2).balanceOf 1 =
        some (b - X) ∧
    ((handlePOST (oneAccountLedger LIABILITY b)
      (mkRequest [mkRequestEntry 1 DebitCredit.CREDIT X LIABILITY])).2).balanceOf 1 =
        some (b + X) := by
  refine ⟨?_, ?_, ?_, ?_⟩ <;>
  · rw [handlePOST_of_valid]
    · simp [applyBatch, LedgerState.balanceOf, oneAccountLedger, netDelta,
        entryDelta, mkRequestEntry, mkRequest, updateDelta,
        getAccountDirection_asset, getAccountDirection_liability, List.find?,
        sub_eq_add_neg]
    · intro e he
      simp only [mkRequest, List.mem_singleton] at he
      subst he
      simp [oneAccountLedger, LedgerState.hasAccount, mkRequestEntry]

/-- Witness for C2 at `b = 20000`, `X = 1234`. -/
theorem C2_direction_effects_witness :
    (0 : Int) < 1234 ∧
    ((handlePOST (oneAccountLedger ASSET 20000)
      (mkRequest [mkRequestEntry 1 DebitCredit.DEBIT 1234 ASSET])).2).balanceOf 1 =
        some (20000 + 1234) :=
  ⟨by decide, (C2_direction_effects 20000 1234 (by decide)).1⟩

/-- Claim C3: a posting is all-or-nothing — either `handlePOST` fails and
returns the store exactly as it was, or it succeeds with every request
entry's row appended and every account's balance shifted by precisely the
net signed delta the batch carries for it. -/
theorem C3_all_or_nothing (st : LedgerState) (req : TransactionBody) :
    (∃ err, handlePOST st req = (Response.serverError err, st)) ∨
    ((handlePOST st req).1 = Response.status201 ∧
      ((handlePOST st req).2).entries =
        st.entries ++ req.ledgerEntries.map toEntry ∧
      ((handlePOST st req).2).accounts = st.accounts.map (fun a =>
        { a with balance := a.balance + netDelta req.ledgerEntries a.id })) := by
  rcases handlePOST_cases st req with h | h
  · right
    rw [h]
    exact ⟨rfl, rfl, rfl⟩
  · left
    exact h

/-- Claim C4, counterexample: the single-entry batch `{C: Credit 500}` is
fewer than two entries, yet `handlePOST` accepts it (201) and C's balance
changes from 0 to 500; the empty batch is likewise accepted — no
`TooFewEntries` rejection exists. -/
theorem C4_counterexample :
    (mkRequest [mkRequestEntry 3 DebitCredit.CREDIT 500 LIABILITY]).ledgerEntries.length < 2 ∧
    (handlePOST liabilityLedger
      (mkRequest [mkRequestEntry 3 DebitCredit.CREDIT 500 LIABILITY])).1 =
        Response.status201 ∧
    ((handlePOST liabilityLedger
      (mkRequest [mkRequestEntry 3 DebitCredit.CREDIT 500 LIABILITY])).2).balanceOf 3 =
        some 500 ∧
    handlePOST liabilityLedger (mkRequest []) = (Response.status201, liabilityLedger) := by
  decide

/-- Claim C4, amended: there is no entry-count validation — the empty batch
is accepted with the store unchanged, and a single-entry batch whose
account exists is accepted and fully applied. -/
theorem C4_no_min_entries (st : LedgerState) (e : LedgerEntry)
    (h : st.hasAccount e.accountId = true) :
    handlePOST st (mkRequest []) = (Response.status201, st) ∧
    handlePOST st (mkRequest [e]) = (Response.status201, applyBatch st [e]) := by
  constructor
  · have hempty := handlePOST_of_valid st (mkRequest [])
      (by intro e' he'; simp [mkRequest] at he')
    rw [hempty]
    simp only [mkRequest]
    rw [applyBatch_nil]
  · exact handlePOST_of_valid st (mkRequest [e])
      (by intro e' he'
          simp only [mkRequest, List.mem_singleton] at he'
          subst he'
          exact h)

lemma hasAccount_retype (st : LedgerState) (f : String → String) (id : Int) :
    (retypeAccounts st f).hasAccount id = st.hasAccount id := by
  simp [retypeAccounts, LedgerState.hasAccount, List.any_map, Function.comp_def]

lemma applyOperation_retype (st : LedgerState) (f : String → String)
    (op : DbOperation) :
    applyOperation (retypeAccounts st f) op =
      Except.map (fun s => retypeAccounts s f) (applyOperation st op) := by
  cases op with
  | createEntry e =>
      by_cases h : st.hasAccount e.accountId
      · simp only [applyOperation, hasAccount_retype, h, if_true, Except.map]
        simp [retypeAccounts]
      · simp [applyOperation, hasAccount_retype, h, Except.map]
  | updateAccount id upd =>
      by_cases h : st.hasAccount id
      · simp only [applyOperation, hasAccount_retype, h, if_true, Except.map]
        congr 1
        refine LedgerState.ext ?_ rfl
        simp only [retypeAccounts, List.map_map]
        refine List.map_congr_left ?_
        intro a _
        simp only [Function.comp_def, updateBalanceRow]
        by_cases hid : a.id = id <;> simp [hid]
      · simp [applyOperation, hasAccount_retype, h, Except.map]

lemma runTransaction_retype (f : String → String) (ops : List DbOperation) :
    ∀ st : LedgerState, runTransaction (retypeAccounts st f) ops =
      Except.map (fun s => retypeAccounts s f) (runTransaction st ops) := by
  induction ops with
  | nil => intro st; simp [runTransaction, Except.map]
  | cons op ops ih =>
      intro st
      rcases happ : applyOperation st op with err | st2
      · rw [runTransaction_cons_error (retypeAccounts st f) err op ops
          (by rw [applyOperation_retype, happ]; rfl)]
        rw [runTransaction_cons_error st err op ops happ]
        rfl
      · rw [runTransaction_cons_ok (retypeAccounts st f) (retypeAccounts st2 f)
          op ops (by rw [applyOperation_retype, happ]; rfl)]
        rw [runTransaction_cons_ok st st2 op ops happ]
        exact ih st2

/-- Witness for C4: the Liability account of the fixture store exists, the
empty batch leaves the store unchanged and the single Credit-500 batch is
applied. -/
theorem C4_no_min_entries_witness :
    liabilityLedger.hasAccount
      (mkRequestEntry 3 DebitCredit.CREDIT 500 LIABILITY).accountId = true ∧
    (handlePOST liabilityLedger (mkRequest []) = (Response.status201, liabilityLedger) ∧
      handlePOST liabilityLedger
        (mkRequest [mkRequestEntry 3 DebitCredit.CREDIT 500 LIABILITY]) =
        (Response.status201,
          applyBatch liabilityLedger [mkRequestEntry 3 DebitCredit.CREDIT 500 LIABILITY])) :=
  ⟨by decide,
    C4_no_min_entries liabilityLedger
      (mkRequestEntry 3 DebitCredit.CREDIT 500 LIABILITY) (by decide)⟩

/-- Claim C5, counterexample: two requests against the same store (whose
account 1 is stored as ASSET in both calls) that differ only in the
`accountType` field carried by the first entry produce different final
balances for account 1 — the posting result is not independent of the
caller-supplied account-type field, and the stored type is not what is
consulted. -/
theorem C5_counterexample :
    (∀ a ∈ exampleLedger.accounts, a.accountType = ASSET) ∧
    ((handlePOST exampleLedger (mkRequest [mkRequestEntry 1 DebitCredit.DEBIT 100 ASSET,
        mkRequestEntry 2 DebitCredit.CREDIT 100 ASSET])).2).balanceOf 1 = some 20100 ∧
    ((handlePOST exampleLedger (mkRequest [mkRequestEntry 1 DebitCredit.DEBIT 100 LIABILITY,
        mkRequestEntry 2 DebitCredit.CREDIT 100 ASSET])).2).balanceOf 1 = some 19900 ∧
    some (20100 : Int) ≠ some (19900 : Int) := by
  decide

/-- Claim C5, amended: the signed delta is resolved from the `accountType`
field carried in each request entry; the target account's stored type is
never consulted — rewriting every stored account type arbitrarily changes
neither the response nor anything in the resulting store beyond the
rewritten type fields themselves. -/
theorem C5_stored_type_not_consulted (st : LedgerState) (req : TransactionBody)
    (f : String → String) :
    (handlePOST (retypeAccounts st f) req).1 = (handlePOST st req).1 ∧
    (handlePOST (retypeAccounts st f) req).2 =
      retypeAccounts ((handlePOST st req).2) f := by
  simp only [handlePOST]
  rw [runTransaction_retype]
  rcases hrun : runTransaction st
      (req.ledgerEntries.flatMap fun entry => createEntryTransactions entry) with
    err | st2 <;>
    simp [Except.map]

/-- Claim C6, counterexample: a two-entry batch both of whose entries
target account 1 is committed with two balance-adjustment operations for
account 1, not one; the adjustments still sum to the net effect
(20000 + 100 - 40 = 20060). -/
theorem C6_counterexample :
    countBalanceAdjustments
      ((mkRequest [mkRequestEntry 1 DebitCredit.DEBIT 100 ASSET,
          mkRequestEntry 1 DebitCredit.CREDIT 40 ASSET]).ledgerEntries.flatMap
        fun entry => createEntryTransactions entry) 1 = 2 ∧
    (2 : Nat) ≠ 1 ∧
    ((handlePOST exampleLedger (mkRequest [mkRequestEntry 1 DebitCredit.DEBIT 100 ASSET,
        mkRequestEntry 1 DebitCredit.CREDIT 40 ASSET])).2).balanceOf 1 = some 20060 := by
  decide

/-- Claim C6, amended: the prepared batch contains one balance adjustment
per entry (several for an account targeted by several entries), each an
atomic increment/decrement run inside the single transaction, so on a
successful posting every account's final balance is its initial balance
plus the algebraic sum of that account's signed deltas in the batch. -/
theorem C6_per_entry_adjustments_sum (st : LedgerState) (req : TransactionBody)
    (h : (handlePOST st req).1 = Response.status201) :
    (∀ id, countBalanceAdjustments
        (req.ledgerEntries.flatMap fun entry => createEntryTransactions entry) id =
      (req.ledgerEntries.filter (fun e => decide (e.accountId = id))).length) ∧
    ((handlePOST st req).2).accounts = st.accounts.map (fun a =>
      { a with balance := a.balance + netDelta req.ledgerEntries a.id }) := by
  constructor
  · intro id
    exact countBalanceAdjustments_flatMap req.ledgerEntries id
  · rcases handlePOST_cases st req with hc | ⟨err, hc⟩
    · rw [hc]
      rfl
    · rw [hc] at h
      simp at h

/-- Witness for C6: the same-account batch posts successfully and its net
sum lands in account 1's balance. -/
theorem C6_per_entry_adjustments_sum_witness :
    (handlePOST exampleLedger (mkRequest [mkRequestEntry 1 DebitCredit.DEBIT 100 ASSET,
        mkRequestEntry 1 DebitCredit.CREDIT 40 ASSET])).1 = Response.status201 ∧
    ((handlePOST exampleLedger (mkRequest [mkRequestEntry 1 DebitCredit.DEBIT 100 ASSET,
        mkRequestEntry 1 DebitCredit.CREDIT 40 ASSET])).2).accounts =
      exampleLedger.accounts.map (fun a =>
        { a with balance := a.balance + netDelta [mkRequestEntry 1 DebitCredit.DEBIT 100 ASSET, mkRequestEntry 1 DebitCredit.CREDIT 40 ASSET] a.id }) :=
  ⟨by decide,
    (C6_per_entry_adjustments_sum exampleLedger
      (mkRequest [mkRequestEntry 1 DebitCredit.DEBIT 100 ASSET,
        mkRequestEntry 1 DebitCredit.CREDIT 40 ASSET]) (by decide)).2⟩

/-- Claim C7, counterexample: for the pair (`"EQUITY"`, Debit) outside the
defined table the resolver returns no operation (`undefined`), and a
posting carrying such an entry is accepted (201) with the account balance
untouched while the entry row is still created — a silent no-op, not a
hard validation failure. -/
theorem C7_counterexample :
    getAccountDirection "EQUITY" DebitCredit.DEBIT 5 = none ∧
    (handlePOST (oneAccountLedger ASSET 20000)
      (mkRequest [mkRequestEntry 1 DebitCredit.DEBIT 5 "EQUITY"])).1 =
        Response.status201 ∧
    ((handlePOST (oneAccountLedger ASSET 20000)
      (mkRequest [mkRequestEntry 1 DebitCredit.DEBIT 5 "EQUITY"])).2).balanceOf 1 =
        some 20000 ∧
    ((handlePOST (oneAccountLedger ASSET 20000)
      (mkRequest [mkRequestEntry 1 DebitCredit.DEBIT 5 "EQUITY"])).2).entries.length = 1 := by
  decide

/-- Claim C7, amended: `getAccountDirection` returns an operation for
exactly the four declared (type, direction) pairs; for every unrecognized
account type it returns `none` (`undefined`), and applying that to a
balance leaves it unchanged — the out-of-table case is a silent no-op
rather than an explicit failure. -/
theorem C7_resolver_silent_noop (t : String) (h1 : t ≠ ASSET)
    (h2 : t ≠ LIABILITY) :
    (∀ dc X, getAccountDirection t dc X = none) ∧
    (∀ dc X b, applyBalanceUpdate b (getAccountDirection t dc X) = b) ∧
    (∀ dc X, (getAccountDirection ASSET dc X).isSome = true ∧
      (getAccountDirection LIABILITY dc X).isSome = true) := by
  refine ⟨?_, ?_, ?_⟩
  · intro dc X
    simp [getAccountDirection, h1, h2]
  · intro dc X b
    simp [getAccountDirection, h1, h2, applyBalanceUpdate]
  · intro dc X
    constructor <;>
      simp [getAccountDirection_asset, getAccountDirection_liability]

/-- Witness for C7 at the unrecognized type `"EQUITY"`. -/
theorem C7_resolver_silent_noop_witness :
    ("EQUITY" ≠ ASSET ∧ "EQUITY" ≠ LIABILITY) ∧
    getAccountDirection "EQUITY" DebitCredit.CREDIT 7 = none :=
  ⟨⟨by decide, by decide⟩,
    (C7_resolver_silent_noop "EQUITY" (by decide) (by decide)).1
      DebitCredit.CREDIT 7⟩

/-- Claim C8, counterexample: a batch both of whose entries have amount 0
is accepted (201) and both zero-amount entry rows are created — there is
no `NonPositiveAmount` rejection. -/
theorem C8_counterexample :
    (∃ e ∈ (mkRequest [mkRequestEntry 1 DebitCredit.DEBIT 0 ASSET,
        mkRequestEntry 2 DebitCredit.CREDIT 0 ASSET]).ledgerEntries, e.amount ≤ 0) ∧
    (handlePOST exampleLedger (mkRequest [mkRequestEntry 1 DebitCredit.DEBIT 0 ASSET,
        mkRequestEntry 2 DebitCredit.CREDIT 0 ASSET])).1 = Response.status201 ∧
    ((handlePOST exampleLedger (mkRequest [mkRequestEntry 1 DebitCredit.DEBIT 0 ASSET,
        mkRequestEntry 2 DebitCredit.CREDIT 0 ASSET])).2).entries.length = 2 := by
  decide

/-- Claim C8, amended: `handlePOST` performs no amount validation — a batch
containing entries of amount `≤ 0` is accepted whenever every referenced
account exists, and is applied in full like any other batch. -/
theorem C8_no_amount_validation (st : LedgerState) (req : TransactionBody)
    (hnp : ∃ e ∈ req.ledgerEntries, e.amount ≤ 0)
    (hex : ∀ e ∈ req.ledgerEntries, st.hasAccount e.accountId = true) :
    handlePOST st req = (Response.status201, applyBatch st req.ledgerEntries) :=
  handlePOST_of_valid st req hex

/-- Witness for C8: the zero-amount batch satisfies both hypotheses and is
accepted and applied. -/
theorem C8_no_amount_validation_witness :
    (∃ e ∈ (mkRequest [mkRequestEntry 1 DebitCredit.DEBIT 0 ASSET,
        mkRequestEntry 2 DebitCredit.CREDIT 0 ASSET]).ledgerEntries, e.amount ≤ 0) ∧
    handlePOST exampleLedger (mkRequest [mkRequestEntry 1 DebitCredit.DEBIT 0 ASSET,
        mkRequestEntry 2 DebitCredit.CREDIT 0 ASSET]) =
      (Response.status201, applyBatch exampleLedger
        [mkRequestEntry 1 DebitCredit.DEBIT 0 ASSET,
          mkRequestEntry 2 DebitCredit.CREDIT 0 ASSET]) :=
  ⟨by decide,
    C8_no_amount_validation exampleLedger
      (mkRequest [mkRequestEntry 1 DebitCredit.DEBIT 0 ASSET,
        mkRequestEntry 2 DebitCredit.CREDIT 0 ASSET])
      (by decide) (by decide)⟩

/-- Claim C9: from Asset accounts A (id 1) and B (id 2) both at 20000,
posting `{A: Debit 1234, B: Credit 1234}` succeeds, creates exactly the two
entry rows, and leaves A at 21234 and B at 18766. -/
theorem C9_example_transfer :
    (handlePOST exampleLedger (mkRequest [mkRequestEntry 1 DebitCredit.DEBIT 1234 ASSET,
        mkRequestEntry 2 DebitCredit.CREDIT 1234 ASSET])).1 = Response.status201 ∧
    ((handlePOST exampleLedger (mkRequest [mkRequestEntry 1 DebitCredit.DEBIT 1234 ASSET,
        mkRequestEntry 2 DebitCredit.CREDIT 1234 ASSET])).2).balanceOf 1 = some 21234 ∧
    ((handlePOST exampleLedger (mkRequest [mkRequestEntry 1 DebitCredit.DEBIT 1234 ASSET,
        mkRequestEntry 2 DebitCredit.CREDIT 1234 ASSET])).2).balanceOf 2 = some 18766 ∧
    ((handlePOST exampleLedger (mkRequest [mkRequestEntry 1 DebitCredit.DEBIT 1234 ASSET,
        mkRequestEntry 2 DebitCredit.CREDIT 1234 ASSET])).2).entries =
      [toEntry (mkRequestEntry 1 DebitCredit.DEBIT 1234 ASSET),
        toEntry (mkRequestEntry 2 DebitCredit.CREDIT 1234 ASSET)] := by
  decide

/-- Claim C10: the posting engine writes only `transactionId`, `name`,
`debitCredit`, `amount` and `accountId` — every entry row it creates has a
null `description`, and the `description` the caller supplies in the
request body is ignored entirely (the result does not depend on it). -/
theorem C10_description_never_written (st : LedgerState) (req : TransactionBody) :
    (∀ e ∈ ((handlePOST st req).2).entries,
      e ∈ st.entries ∨ e.description = none) ∧
    (∀ d, handlePOST st { req with description := d } = handlePOST st req) := by
  constructor
  · intro e he
    rcases handlePOST_cases st req with hc | ⟨err, hc⟩
    · rw [hc] at he
      simp only [applyBatch, List.mem_append] at he
      rcases he with h1 | h2
      · left
        exact h1
      · right
        rcases List.mem_map.mp h2 with ⟨a, _, rfl⟩
        rfl
    · rw [hc] at he
      left
      exact he
  · intro d
    rfl

/-- Witness for C10: the entry row created for the example Debit entry is
among the post-call rows and indeed carries no description. -/
theorem C10_description_never_written_witness :
    toEntry (mkRequestEntry 1 DebitCredit.DEBIT 1234 ASSET) ∈
      ((handlePOST exampleLedger (mkRequest [mkRequestEntry 1 DebitCredit.DEBIT 1234 ASSET,
        mkRequestEntry 2 DebitCredit.CREDIT 1234 ASSET])).2).entries ∧
    (toEntry (mkRequestEntry 1 DebitCredit.DEBIT 1234 ASSET) ∈ exampleLedger.entries ∨
      (toEntry (mkRequestEntry 1 DebitCredit.DEBIT 1234 ASSET)).description = none) :=
  ⟨by decide,
    (C10_description_never_written exampleLedger
      (mkRequest [mkRequestEntry 1 DebitCredit.DEBIT 1234 ASSET,
        mkRequestEntry 2 DebitCredit.CREDIT 1234 ASSET])).1 _ (by decide)⟩

end Ledger
